import Mathlib

/-!
Shallow embedding of the quiz-platform backend in src/server.js.

Collections (users, directions, tests, results, verification entries) are
modelled as Lean lists; each Express handler that the claims touch becomes a
pure function from the collections it reads (plus the authenticated token
subject and the request body) to an `Except` of an error code and the
response together with the new value of any collection the handler writes.
An error result corresponds to a 4xx response, in which case the handler
performs no write, so the caller keeps the old collections.

JavaScript numbers in the percentage computation are IEEE-754 binary64
doubles; the computation `Math.round((score / total) * 100)` is modelled
bit-exactly for positive normal values by `jsPercentage` below (`none`
models the NaN produced by `0 / 0` when a test has no questions, which
JSON serialization turns into `null`).
-/

namespace Quiz

set_option maxRecDepth 1000000

/-- Direction record as stored in directions.json (id, name). -/
structure Direction where
  id : String
  name : String
deriving DecidableEq

/-- Account record as stored in users.json. -/
structure User where
  id : String
  firstName : String
  lastName : String
  direction : String
  directionName : String
  phone : String
  telegram : String
  login : String
  password : String
  isAdmin : Bool
  createdAt : Nat
deriving DecidableEq

/-- Question of a stored test: id, prompt, options, correct-option marker. -/
structure Question where
  id : String
  question : String
  options : List String
  correct : Int
deriving DecidableEq

/-- Test record as stored in tests.json. -/
structure Test where
  id : String
  title : String
  direction : String
  directionName : String
  timeLimit : Int
  attempts : Int
  questions : List Question
  createdAt : Nat
  updatedAt : Option Nat
deriving DecidableEq

/-- Per-question outcome stored inside a submission result. The user answer
is an `Option` because `answers[index]` is `undefined` (`none`) when the
submitted array is shorter than the question list. -/
structure QuestionResult where
  questionId : String
  userAnswer : Option Int
  correctAnswer : Int
  isCorrect : Bool
deriving DecidableEq

/-- Submission result record as stored in results.json. The percentage is
an `Option Nat`: `none` models the NaN value that `Math.round((0/0)*100)`
produces for a test with an empty question list. -/
structure SubmissionResult where
  id : String
  userId : String
  testId : String
  score : Nat
  totalQuestions : Nat
  percentage : Option Nat
  timeSpent : Nat
  questionResults : List QuestionResult
  createdAt : Nat
deriving DecidableEq

/-- Verification entry as stored in verification.json. Timestamps are
modelled as naturals; the source compares `new Date(v.expiresAt) > new Date()`,
which is the strict order on the stored instants. -/
structure Verification where
  telegram : String
  code : String
  createdAt : Nat
  expiresAt : Nat
deriving DecidableEq

/-! ### Bit-exact model of the percentage computation

`Math.round((score / total) * 100)` evaluates in IEEE-754 binary64:
one correctly rounded division, one correctly rounded multiplication by the
exactly representable constant 100, then `Math.round` (floor of value plus
one half). A positive normal double is a value `m * 2 ^ e` with
`2 ^ 52 ≤ m < 2 ^ 53`; all quantities reachable here (scores and totals
below `2 ^ 53`, percentages up to 100) stay far inside the normal range,
so overflow and subnormals never occur and are not modelled. -/

/-- Nearest integer to `a / b` with ties to even, for `b > 0`: the IEEE-754
round-to-nearest-even rule applied to an exact rational quotient. -/
def divRoundEven (a b : Nat) : Nat :=
  let q := a / b
  let r := a % b
  if 2 * r < b then q
  else if b < 2 * r then q + 1
  else if q % 2 = 0 then q else q + 1

/-- Floor of the base-two logarithm, by a bounded scan so that the kernel
can evaluate it on literals. Correct for every `n < 2 ^ 256`, which covers
the whole double-precision range used by the model. -/
def natLog2 (n : Nat) : Nat :=
  ((List.range 256).filter (fun k => 2 ^ (k + 1) ≤ n)).length

/-- Positive normal binary64 value `m * 2 ^ e` with `2 ^ 52 ≤ m < 2 ^ 53`. -/
structure FDouble where
  m : Nat
  e : Int
deriving DecidableEq

/-- Renormalize after rounding: rounding up can push the significand to
exactly `2 ^ 53`, which carries into the exponent. -/
def renorm (m : Nat) (e : Int) : FDouble :=
  if m = 2 ^ 53 then ⟨2 ^ 52, e + 1⟩ else ⟨m, e⟩

/-- Correctly rounded double quotient of two positive integers `s / t`.
With `a = ⌊log2 s⌋` and `b = ⌊log2 t⌋` the exact quotient lies in
`[2 ^ (a - b - 1), 2 ^ (a - b + 1))`, so its binade exponent is `a - b`
exactly when `t * 2 ^ a ≤ s * 2 ^ b`; the significand is the quotient
scaled into `[2 ^ 52, 2 ^ 53)` and rounded to nearest, ties to even. -/
def divDouble (s t : Nat) : FDouble :=
  let a := natLog2 s
  let b := natLog2 t
  let e : Int := if t * 2 ^ a ≤ s * 2 ^ b then (a : Int) - b else (a : Int) - b - 1
  let k : Int := 52 - e
  let m := if 0 ≤ k then divRoundEven (s * 2 ^ k.toNat) t
           else divRoundEven s (t * 2 ^ (-k).toNat)
  renorm m (e - 52)

/-- Correctly rounded double product `d * 100` (the constant 100 is exactly
representable, so the exact product is `100 * m * 2 ^ e`, renormalized and
rounded to nearest, ties to even). -/
def mulDouble100 (d : FDouble) : FDouble :=
  let p := 100 * d.m
  let k := natLog2 p - 52
  renorm (divRoundEven p (2 ^ k)) (d.e + k)

/-- Math.round on a positive double value: the integer closest to the
value, halves rounding up, that is `⌊value + 1 / 2⌋` computed exactly. -/
def jsMathRound (d : FDouble) : Nat :=
  if 0 ≤ d.e then d.m * 2 ^ d.e.toNat
  else (2 * d.m + 2 ^ (-d.e).toNat) / 2 ^ ((-d.e).toNat + 1)

/-- Percentage as the handler computes it: `Math.round((score/total)*100)`
in double arithmetic. `none` is the NaN from `0 / 0` when `total = 0`
(with no questions the score is necessarily 0); a zero score over a
positive total is exactly `0 / total = +0`, giving percentage 0. -/
def jsPercentage (score total : Nat) : Option Nat :=
  if total = 0 then none
  else if score = 0 then some 0
  else some (jsMathRound (mulDouble100 (divDouble score total)))

/-- Exact half-up rounding of the rational `num / den`, the conventional
reading of `round` in the specification formula
`percentage = round(100 * score / totalQuestions)`. -/
def specRound (num den : Nat) : Nat := (2 * num + den) / (2 * den)

/-! ### Grading (POST /api/submit-test, lines 508-524)

`test.questions.map((question, index) => ...)` reads `answers[index]`,
which is `undefined` past the end of the array, and compares it with
strict equality against `question.correct`. -/

/-- One grading step per question, carrying the running index. -/
def gradeFrom (answers : List Int) : Nat → List Question → List QuestionResult
  | _, [] => []
  | i, q :: qs =>
    { questionId := q.id
      userAnswer := answers[i]?
      correctAnswer := q.correct
      isCorrect := decide (answers[i]? = some q.correct) } :: gradeFrom answers (i + 1) qs

/-- The per-question outcome list the handler builds. -/
def gradeQuestions (questions : List Question) (answers : List Int) : List QuestionResult :=
  gradeFrom answers 0 questions

/-- Score as the claims describe it: the number of positions `i` at which
the submitted answer equals the correct-option marker of question `i`. -/
def specScore (questions : List Question) (answers : List Int) : Nat :=
  (List.range questions.length).countP
    (fun i => decide (answers[i]? = (questions[i]?).map Question.correct))

/-! ### POST /api/submit-test (lines 485-552) -/

/-- Error outcomes of the submit handler: missing testId or answers (400),
unknown test (404), repeated submission (400). -/
inductive SubmitError
  | validationError
  | testNotFound
  | alreadySubmitted
deriving DecidableEq

/-- Request body of POST /api/submit-test. The destructuring
`const { testId, answers, timeSpent } = req.body` ignores every other
field, so a `userId` smuggled into the body is carried here only to state
that the handler never reads it. `answers` is `none` when the body lacks
the field (the `!answers` validation); `timeSpent` falls back to 0 via
`timeSpent || 0`. -/
structure SubmitRequest where
  testId : String
  answers : Option (List Int)
  timeSpent : Option Nat
  bodyUserId : Option String
deriving DecidableEq

/-- Success payload `{score, totalQuestions, percentage}`. -/
structure SubmitResponse where
  score : Nat
  totalQuestions : Nat
  percentage : Option Nat
deriving DecidableEq

/-- The submit handler. `tokenUserId` is `req.user.userId` decoded from the
bearer token; `now` is `Date.now()` (also used as the new record id). On
success it returns the response payload and the new content of
results.json; on error nothing is written. -/
def submitTest (tests : List Test) (results : List SubmissionResult)
    (tokenUserId : String) (req : SubmitRequest) (now : Nat) :
    Except SubmitError (SubmitResponse × List SubmissionResult) :=
  if req.testId = "" then .error .validationError
  else
    match req.answers with
    | none => .error .validationError
    | some answers =>
      match tests.find? (fun t => t.id == req.testId) with
      | none => .error .testNotFound
      | some test =>
        match results.find? (fun r => r.userId == tokenUserId && r.testId == req.testId) with
        | some _ => .error .alreadySubmitted
        | none =>
          let questionResults := gradeQuestions test.questions answers
          let score := questionResults.countP (fun r => r.isCorrect)
          let newResult : SubmissionResult :=
            { id := toString now
              userId := tokenUserId
              testId := req.testId
              score := score
              totalQuestions := test.questions.length
              percentage := jsPercentage score test.questions.length
              timeSpent := req.timeSpent.getD 0
              questionResults := questionResults
              createdAt := now }
          .ok ({ score := score
                 totalQuestions := test.questions.length
                 percentage := jsPercentage score test.questions.length },
               results ++ [newResult])

/-! ### GET /api/tests (lines 421-454) -/

/-- Error outcome of GET /api/tests: the token subject is not in users.json. -/
inductive GetTestsError
  | userNotFound
deriving DecidableEq

/-- One entry of the GET /api/tests payload: the stored test spread
together with the derived `completed` flag. -/
structure TestWithStatus where
  test : Test
  completed : Bool
deriving DecidableEq

/-- The test-list handler: non-admin users see only the tests of their own
direction, admins see every test; each test is annotated with whether the
user already has a result for it. -/
def getTests (users : List User) (tests : List Test)
    (results : List SubmissionResult) (tokenUserId : String) :
    Except GetTestsError (List TestWithStatus) :=
  match users.find? (fun u => u.id == tokenUserId) with
  | none => .error .userNotFound
  | some user =>
    let userTests := if user.isAdmin then tests
                     else tests.filter (fun t => t.direction == user.direction)
    let userResults := results.filter (fun r => r.userId == user.id)
    .ok (userTests.map (fun t => ⟨t, userResults.any (fun r => r.testId == t.id)⟩))

/-! ### GET /api/tests/:id (lines 457-482) -/

/-- Question as transmitted to a learner: only id, prompt and options; the
payload type has no field for the correct-option marker. -/
structure PublicQuestion where
  id : String
  question : String
  options : List String
deriving DecidableEq

/-- The learner-facing test payload: the stored test spread with its
questions replaced by their stripped form. -/
structure PublicTest where
  id : String
  title : String
  direction : String
  directionName : String
  timeLimit : Int
  attempts : Int
  questions : List PublicQuestion
  createdAt : Nat
  updatedAt : Option Nat
deriving DecidableEq

/-- Error outcome of GET /api/tests/:id. -/
inductive GetTestError
  | testNotFound
deriving DecidableEq

/-- Projection dropping the correct-option marker of one question. -/
def stripQuestion (q : Question) : PublicQuestion :=
  { id := q.id, question := q.question, options := q.options }

/-- The single-test handler: looks the test up by id and strips the
correct answers from every question before responding. -/
def getTestById (tests : List Test) (testId : String) :
    Except GetTestError PublicTest :=
  match tests.find? (fun t => t.id == testId) with
  | none => .error .testNotFound
  | some test =>
    .ok { id := test.id
          title := test.title
          direction := test.direction
          directionName := test.directionName
          timeLimit := test.timeLimit
          attempts := test.attempts
          questions := test.questions.map stripQuestion
          createdAt := test.createdAt
          updatedAt := test.updatedAt }

/-! ### Admin test catalog (lines 618-658 and 745-791) -/

/-- Question as sent by the admin client when creating or updating a test.
Its id is optional: the JSON object may or may not carry one. -/
structure ClientQuestion where
  id : Option String
  question : String
  options : List String
  correct : Int
deriving DecidableEq

/-- Question-id assignment `questions.map((q, index) => ({ id: (index + 1).toString(), ...q }))`.
The spread comes after the id field, so when the client question carries an
id of its own that id overwrites the freshly assigned sequential one; the
sequential id `(index + 1).toString()` survives only when the client
question has no id. -/
def assignIdsFrom : Nat → List ClientQuestion → List Question
  | _, [] => []
  | i, q :: qs =>
    { id := q.id.getD (toString (i + 1))
      question := q.question
      options := q.options
      correct := q.correct } :: assignIdsFrom (i + 1) qs

/-- Ids for a whole client question list, starting the index at 0. -/
def assignIds (questions : List ClientQuestion) : List Question :=
  assignIdsFrom 0 questions

/-- Error outcomes of the admin create and update handlers. -/
inductive CatalogError
  | validationError
  | unknownDirection
  | testNotFound
deriving DecidableEq

/-- Request body shared by POST /api/admin/tests and PUT /api/admin/tests/:id. -/
structure CreateRequest where
  title : String
  direction : String
  timeLimit : Int
  attempts : Int
  questions : List ClientQuestion
deriving DecidableEq

/-- Truthiness validation `!title || !direction || !timeLimit || !attempts
|| !questions || !questions.length` of both handlers. -/
def createRequestBad (req : CreateRequest) : Prop :=
  req.title = "" ∨ req.direction = "" ∨ req.timeLimit = 0 ∨ req.attempts = 0 ∨
    req.questions = []

instance (req : CreateRequest) : Decidable (createRequestBad req) := by
  unfold createRequestBad; infer_instance

/-- POST /api/admin/tests: validates the body, resolves the direction,
then appends a new test whose questions went through `assignIds`. Returns
the created test and the new content of tests.json. -/
def createTest (directions : List Direction) (tests : List Test)
    (req : CreateRequest) (now : Nat) : Except CatalogError (Test × List Test) :=
  if createRequestBad req then .error .validationError
  else
    match directions.find? (fun d => d.id == req.direction) with
    | none => .error .unknownDirection
    | some dir =>
      let newTest : Test :=
        { id := toString now
          title := req.title
          direction := req.direction
          directionName := dir.name
          timeLimit := req.timeLimit
          attempts := req.attempts
          questions := assignIds req.questions
          createdAt := now
          updatedAt := none }
      .ok (newTest, tests ++ [newTest])

/-- JavaScript `Array.prototype.findIndex` with an explicit running index;
`none` models the -1 of a failed search. -/
def findIdxFrom {α : Type} (p : α → Bool) : Nat → List α → Option Nat
  | _, [] => none
  | i, a :: l => if p a then some i else findIdxFrom p (i + 1) l

/-- PUT /api/admin/tests/:id: validates the body, locates the test by
index, resolves the direction, then replaces the entry in place, keeping
its id and createdAt, with questions again going through `assignIds`.
The inner `testNotFound` fallback mirrors an out-of-range index read and
is unreachable because `findIdxFrom` only returns valid indices. -/
def updateTest (directions : List Direction) (tests : List Test)
    (testId : String) (req : CreateRequest) (now : Nat) :
    Except CatalogError (Test × List Test) :=
  if createRequestBad req then .error .validationError
  else
    match findIdxFrom (fun t => t.id == testId) 0 tests with
    | none => .error .testNotFound
    | some idx =>
      match directions.find? (fun d => d.id == req.direction) with
      | none => .error .unknownDirection
      | some dir =>
        match tests[idx]? with
        | none => .error .testNotFound
        | some old =>
          let upd : Test :=
            { id := old.id
              title := req.title
              direction := req.direction
              directionName := dir.name
              timeLimit := req.timeLimit
              attempts := req.attempts
              questions := assignIds req.questions
              createdAt := old.createdAt
              updatedAt := some now }
          .ok (upd, tests.set idx upd)

/-! ### DELETE /api/admin/directions/:id (lines 826-856) -/

/-- Error outcomes of the direction delete handler: unknown id (404), or
the in-use conflicts (400) for references from users and from tests. -/
inductive DirectionError
  | notFound
  | inUseByUsers
  | inUseByTests
deriving DecidableEq

/-- The direction delete handler: finds the direction by id, rejects the
deletion while any user or any test references the id, otherwise splices
the entry out and returns the new content of directions.json. On error
nothing is written. -/
def deleteDirection (directions : List Direction) (users : List User)
    (tests : List Test) (directionId : String) :
    Except DirectionError (List Direction) :=
  match findIdxFrom (fun d => d.id == directionId) 0 directions with
  | none => .error .notFound
  | some idx =>
    if users.any (fun u => u.direction == directionId) then .error .inUseByUsers
    else if tests.any (fun t => t.direction == directionId) then .error .inUseByTests
    else .ok (directions.eraseIdx idx)

/-- GET /api/directions simply returns the stored collection. -/
def getDirections (directions : List Direction) : List Direction := directions

/-! ### POST /api/verify-code (lines 335-363) -/

/-- Error outcomes of the code verification handler: missing fields (400)
or no live matching entry (400, the InvalidOrExpired conflict). -/
inductive VerifyError
  | validationError
  | invalidOrExpired
deriving DecidableEq

/-- The code verification handler: succeeds exactly when some stored entry
matches both identity and code and expires strictly after `now`; on
success every entry matching identity and code is filtered out and the
filtered collection is written back. -/
def verifyCode (verifications : List Verification) (telegram code : String)
    (now : Nat) : Except VerifyError (List Verification) :=
  if telegram = "" ∨ code = "" then .error .validationError
  else
    match verifications.find? (fun v =>
        v.telegram == telegram && v.code == code && decide (now < v.expiresAt)) with
    | none => .error .invalidOrExpired
    | some _ =>
      .ok (verifications.filter (fun v => !(v.telegram == telegram && v.code == code)))

/-! ### Concrete data for witnesses and counterexamples -/

/-- Token subject id used by the concrete scenarios. -/
def uid1 : String := "u1"

/-- A second account id, smuggled into a request body in one witness. -/
def otherUid : String := "u2"

/-- Test id used by the concrete scenarios. -/
def tid1 : String := "t1"

/-- The four questions of the specification scenario: correct answers 0,1,2,3. -/
def demoQuestions : List Question :=
  [⟨"1", "Q1", ["a", "b", "c", "d"], 0⟩,
   ⟨"2", "Q2", ["a", "b", "c", "d"], 1⟩,
   ⟨"3", "Q3", ["a", "b", "c", "d"], 2⟩,
   ⟨"4", "Q4", ["a", "b", "c", "d"], 3⟩]

/-- The four-question test of the specification scenario. -/
def demoTest : Test :=
  { id := "t1", title := "T1", direction := "1", directionName := "Math",
    timeLimit := 10, attempts := 1, questions := demoQuestions,
    createdAt := 1, updatedAt := none }

/-- A test in another direction, for the direction-scoping witness. -/
def demoTest2 : Test :=
  { id := "t2", title := "T2", direction := "2", directionName := "Arts",
    timeLimit := 10, attempts := 1, questions := demoQuestions,
    createdAt := 2, updatedAt := none }

/-- The answer set of the specification scenario: third answer is the
out-of-range value 9. -/
def demoAnswers : List Int := [0, 1, 9, 3]

/-- Submit request of the specification scenario. -/
def demoReq : SubmitRequest :=
  { testId := "t1", answers := some demoAnswers, timeSpent := some 30,
    bodyUserId := none }

/-- A second submit request for the same test (used for the repeat attempt). -/
def demoReq2 : SubmitRequest :=
  { testId := "t1", answers := some [], timeSpent := none, bodyUserId := none }

/-- Expected response of the scenario: 3 of 4 correct, 75 percent. -/
def demoResp : SubmitResponse := { score := 3, totalQuestions := 4, percentage := some 75 }

/-- Expected persisted record of the scenario (submitted at instant 7). -/
def demoRecord : SubmissionResult :=
  { id := "7", userId := uid1, testId := "t1", score := 3, totalQuestions := 4,
    percentage := some 75, timeSpent := 30,
    questionResults :=
      [⟨"1", some 0, 0, true⟩, ⟨"2", some 1, 1, true⟩,
       ⟨"3", some 9, 2, false⟩, ⟨"4", some 3, 3, true⟩],
    createdAt := 7 }

/-- A stored test whose question list is empty (not creatable through the
admin endpoints, which reject empty question lists, but representable in
tests.json, whose content the submit handler trusts). -/
def emptyTest : Test :=
  { id := "t0", title := "T0", direction := "1", directionName := "Math",
    timeLimit := 10, attempts := 1, questions := [],
    createdAt := 1, updatedAt := none }

/-- Submission against the zero-question test. -/
def emptyReq : SubmitRequest :=
  { testId := "t0", answers := some [], timeSpent := none, bodyUserId := none }

/-- Response of the zero-question submission: percentage is NaN. -/
def emptyResp : SubmitResponse := { score := 0, totalQuestions := 0, percentage := none }

/-- Persisted record of the zero-question submission (instant 5). -/
def emptyRecord : SubmissionResult :=
  { id := "5", userId := uid1, testId := "t0", score := 0, totalQuestions := 0,
    percentage := none, timeSpent := 0, questionResults := [], createdAt := 5 }

/-- One question of the 200-question test. -/
def bigQ : Question := { id := "1", question := "Q", options := ["a", "b"], correct := 0 }

/-- A 200-question test: creatable through POST /api/admin/tests, which
puts no upper bound on the question count. -/
def bigTest : Test :=
  { id := "t1", title := "big", direction := "1", directionName := "Math",
    timeLimit := 10, attempts := 1, questions := List.replicate 200 bigQ,
    createdAt := 1, updatedAt := none }

/-- Answers matching exactly the first 29 of the 200 questions. -/
def bigAnswers : List Int := List.replicate 29 0 ++ List.replicate 171 1

/-- Submission of the 29-of-200 answer set. -/
def bigReq : SubmitRequest :=
  { testId := "t1", answers := some bigAnswers, timeSpent := none, bodyUserId := none }

/-- Response of the 29-of-200 submission: the double-precision value of
`(29/200)*100` is just below 14.5, so `Math.round` gives 14, not 15. -/
def bigResp : SubmitResponse := { score := 29, totalQuestions := 200, percentage := some 14 }

/-- Direction used by the catalog scenarios. -/
def dir1 : Direction := { id := "1", name := "Math" }

/-- Client question carrying its own id "7". -/
def cq7 : ClientQuestion := { id := some ("7"), question := "Q1", options := ["a", "b"], correct := 0 }

/-- Client question without an id. -/
def cqPlain : ClientQuestion := { id := none, question := "Q2", options := ["a", "b"], correct := 1 }

/-- Create request whose single question carries client id "7". -/
def createReq7 : CreateRequest :=
  { title := "T", direction := "1", timeLimit := 10, attempts := 1, questions := [cq7] }

/-- Create request mixing a client-id question and an id-less question. -/
def createReqMix : CreateRequest :=
  { title := "T", direction := "1", timeLimit := 10, attempts := 1,
    questions := [cq7, cqPlain] }

/-- Test produced by `createReqMix` at instant 9: the first stored id is
the client-supplied "7", only the second gets the sequential "2". -/
def tMix : Test :=
  { id := "9", title := "T", direction := "1", directionName := "Math",
    timeLimit := 10, attempts := 1,
    questions := [⟨"7", "Q1", ["a", "b"], 0⟩, ⟨"2", "Q2", ["a", "b"], 1⟩],
    createdAt := 9, updatedAt := none }

/-- Non-admin account in direction "1", for the scoping witness. -/
def demoUser : User :=
  { id := "u1", firstName := "A", lastName := "B", direction := "1",
    directionName := "Math", phone := "998", telegram := "@a", login := "a",
    password := "h", isAdmin := false, createdAt := 0 }

/-- Stored verification entry expiring at instant 100. -/
def demoVer : Verification :=
  { telegram := "@alice", code := "123456", createdAt := 0, expiresAt := 100 }

/-- The learner-facing payload of `demoTest`: options without correct markers. -/
def demoPublic : PublicTest :=
  { id := "t1", title := "T1", direction := "1", directionName := "Math",
    timeLimit := 10, attempts := 1,
    questions :=
      [⟨"1", "Q1", ["a", "b", "c", "d"]⟩, ⟨"2", "Q2", ["a", "b", "c", "d"]⟩,
       ⟨"3", "Q3", ["a", "b", "c", "d"]⟩, ⟨"4", "Q4", ["a", "b", "c", "d"]⟩],
    createdAt := 1, updatedAt := none }

/-- Outcome record of grading question 1 with an empty answer array. -/
def qrW : QuestionResult := ⟨"1", none, 0, false⟩

/-- Identity used by the verification witness. -/
def tgAlice : String := "@alice"

/-- Code used by the verification witness. -/
def codeA : String := "123456"

/-- Expected GET /api/tests payload for the non-admin scoping witness. -/
def demoScoped : List TestWithStatus := [⟨demoTest, false⟩]

/-- Direction id used by the deletion witness. -/
def dirOne : String := "1"

/-! ### Helper lemmas -/

/-- Inversion of a successful submit: the validations passed, the test was
found, no earlier result of this user for this test existed, and both the
response and the appended record are the graded values. -/
theorem submitTest_ok_inv {tests : List Test} {results : List SubmissionResult}
    {uid : String} {req : SubmitRequest} {now : Nat} {resp : SubmitResponse}
    {results' : List SubmissionResult}
    (h : submitTest tests results uid req now = .ok (resp, results')) :
    req.testId ≠ ""
    ∧ ∃ answers test,
        req.answers = some answers
        ∧ tests.find? (fun t => t.id == req.testId) = some test
        ∧ results.find? (fun r => r.userId == uid && r.testId == req.testId) = none
        ∧ resp = { score := (gradeQuestions test.questions answers).countP (fun r => r.isCorrect)
                   totalQuestions := test.questions.length
                   percentage := jsPercentage
                     ((gradeQuestions test.questions answers).countP (fun r => r.isCorrect))
                     test.questions.length }
        ∧ results' = results ++
            [{ id := toString now
               userId := uid
               testId := req.testId
               score := (gradeQuestions test.questions answers).countP (fun r => r.isCorrect)
               totalQuestions := test.questions.length
               percentage := jsPercentage
                 ((gradeQuestions test.questions answers).countP (fun r => r.isCorrect))
                 test.questions.length
               timeSpent := req.timeSpent.getD 0
               questionResults := gradeQuestions test.questions answers
               createdAt := now }] := by
  unfold submitTest at h
  split at h
  · exact Except.noConfusion h
  next h1 =>
  split at h
  · exact Except.noConfusion h
  next answers hans =>
  split at h
  · exact Except.noConfusion h
  next test hT =>
  split at h
  · exact Except.noConfusion h
  next hR =>
  injection h with hp
  exact ⟨h1, answers, test, hans, hT, hR,
    (congrArg Prod.fst hp).symm, (congrArg Prod.snd hp).symm⟩

/-- The grading list counts exactly the positions whose answer matches the
correct marker, shifted by the starting index. -/
theorem gradeFrom_countP (as : List Int) :
    ∀ (qs : List Question) (k : Nat),
      (gradeFrom as k qs).countP (fun r => r.isCorrect)
        = (List.range qs.length).countP
            (fun j => decide (as[k + j]? = (qs[j]?).map Question.correct))
  | [], k => by simp [gradeFrom]
  | q :: qs, k => by
    rw [gradeFrom, List.countP_cons, gradeFrom_countP as qs (k + 1),
      List.length_cons, List.range_succ_eq_map, List.countP_cons, List.countP_map]
    have hfun : ((fun j => decide (as[k + j]? = ((q :: qs)[j]?).map Question.correct)) ∘ Nat.succ)
        = (fun j => decide (as[(k + 1) + j]? = (qs[j]?).map Question.correct)) := by
      funext j
      have h1 : k + Nat.succ j = (k + 1) + j := by omega
      simp only [Function.comp, List.getElem?_cons_succ, h1]
    rw [hfun]
    congr 1
    simp

/-- The score accumulated by the handler equals the specification count. -/
theorem gradeQuestions_countP_eq_specScore (qs : List Question) (as : List Int) :
    (gradeQuestions qs as).countP (fun r => r.isCorrect) = specScore qs as := by
  unfold gradeQuestions specScore
  rw [gradeFrom_countP]
  have hfun : (fun j => decide (as[0 + j]? = (qs[j]?).map Question.correct))
      = (fun j => decide (as[j]? = (qs[j]?).map Question.correct)) := by
    funext j; rw [Nat.zero_add]
  rw [hfun]

/-- Entry of the grading list at a position, in closed form. -/
theorem gradeFrom_getElem? (as : List Int) :
    ∀ (qs : List Question) (k i : Nat),
      (gradeFrom as k qs)[i]? = (qs[i]?).map (fun q =>
        { questionId := q.id
          userAnswer := as[k + i]?
          correctAnswer := q.correct
          isCorrect := decide (as[k + i]? = some q.correct) })
  | [], k, i => by simp [gradeFrom]
  | q :: qs, k, 0 => by simp [gradeFrom]
  | q :: qs, k, i + 1 => by
    rw [gradeFrom, List.getElem?_cons_succ, List.getElem?_cons_succ,
      gradeFrom_getElem? as qs (k + 1) i]
    have h1 : (k + 1) + i = k + (i + 1) := by omega
    rw [h1]

/-! ### Claim C1 -/

/-- Claim C1 counterexample: a submission against a stored test with an
empty question list succeeds, and the returned percentage is the NaN of
the division 0/0 (modelled none), which is not 0. -/
theorem submit_zero_questions_not_zero_cex :
    submitTest [emptyTest] [] uid1 emptyReq 5 = .ok (emptyResp, [emptyRecord])
    ∧ emptyResp.percentage ≠ some 0 :=
  ⟨rfl, by decide⟩

/-- Claim C1 as amended: for every submission against a test whose
question list is empty, the handler succeeds and both the returned and the
persisted percentage are NaN (modelled none, serialized as null), not 0. -/
theorem submit_zero_questions_percentage_nan
    (tests : List Test) (results : List SubmissionResult) (uid : String)
    (req : SubmitRequest) (now : Nat) (resp : SubmitResponse)
    (results' : List SubmissionResult) (test : Test)
    (h : submitTest tests results uid req now = .ok (resp, results'))
    (hfind : tests.find? (fun t => t.id == req.testId) = some test)
    (hq : test.questions = []) :
    resp.percentage = none ∧ ∃ r, results' = results ++ [r] ∧ r.percentage = none := by
  obtain ⟨-, answers, test', -, hT, -, hresp, hres⟩ := submitTest_ok_inv h
  rw [hfind] at hT
  injection hT with hT'
  subst hT'
  constructor
  · rw [hresp]; simp [hq, jsPercentage]
  · exact ⟨_, hres, by simp [hq, jsPercentage]⟩

/-- Witness for claim C1: the amended statement at the concrete
zero-question scenario. -/
theorem submit_zero_questions_percentage_nan_witness :
    emptyResp.percentage = none
    ∧ ∃ r, ([emptyRecord] : List SubmissionResult) = [] ++ [r] ∧ r.percentage = none :=
  submit_zero_questions_percentage_nan [emptyTest] [] uid1 emptyReq 5 emptyResp
    [emptyRecord] emptyTest (by rfl) (by rfl) (by rfl)

/-! ### Claim C3 -/

/-- Claim C3: once a submit by an account for a test has succeeded and its
record is persisted, any later sequential submit by the same account for
the same test (with whatever answers) returns the AlreadySubmitted
conflict; an error return writes nothing, so no new result is persisted. -/
theorem submit_second_attempt_conflict
    (tests : List Test) (results : List SubmissionResult) (uid : String)
    (req req2 : SubmitRequest) (now now2 : Nat) (resp : SubmitResponse)
    (results' : List SubmissionResult) (as2 : List Int)
    (h : submitTest tests results uid req now = .ok (resp, results'))
    (hid : req2.testId = req.testId) (has2 : req2.answers = some as2) :
    submitTest tests results' uid req2 now2 = .error .alreadySubmitted := by
  obtain ⟨h1, answers, test, hans, hT, hR, -, hres⟩ := submitTest_ok_inv h
  unfold submitTest
  rw [hid, has2, if_neg h1, hT, hres]
  simp [List.find?_append, hR, List.find?_cons]

/-- Witness for claim C3: the concrete scenario submitted twice. -/
theorem submit_second_attempt_conflict_witness :
    submitTest [demoTest] [demoRecord] uid1 demoReq2 8 = .error .alreadySubmitted :=
  submit_second_attempt_conflict [demoTest] [] uid1 demoReq demoReq2 7 8 demoResp
    [demoRecord] [] (by rfl) (by rfl) (by rfl)

/-! ### Claim C4 -/

/-- Claim C4 counterexample: a 200-question test answered correctly 29
times. The double-precision value of `(29/200)*100` is 14.499999999999998,
so the handler returns percentage 14, while the exact half-up rounding of
`100*29/200 = 14.5` is 15. The last conjunct shows the other reading of
round (ties to even, where 14.5 rounds to 14) fails elsewhere: for 1 of 40
the handler computes exactly 2.5 and `Math.round` returns 3, while ties to
even gives 2. -/
theorem submit_percentage_rounding_cex :
    (submitTest [bigTest] [] uid1 bigReq 7).toOption.map Prod.fst = some bigResp
    ∧ bigResp.percentage ≠ some (specRound (100 * bigResp.score) bigResp.totalQuestions)
    ∧ specRound (100 * bigResp.score) bigResp.totalQuestions = 15
    ∧ bigResp.percentage = some 14
    ∧ jsPercentage 1 40 = some 3 :=
  ⟨rfl, by decide, by decide, rfl, rfl⟩

/-- Claim C4 as amended: for every successful submission to a test with at
least one question, the returned and persisted score is the count of
positions whose submitted answer equals the correct marker, and the
returned and persisted percentage is `Math.round((score/total)*100)`
evaluated in double-precision arithmetic, which can differ from the exact
rounding of `100*score/total` (see the counterexample). -/
theorem submit_percentage_double_rounding
    (tests : List Test) (results : List SubmissionResult) (uid : String)
    (req : SubmitRequest) (now : Nat) (resp : SubmitResponse)
    (results' : List SubmissionResult) (test : Test) (as : List Int)
    (h : submitTest tests results uid req now = .ok (resp, results'))
    (hfind : tests.find? (fun t => t.id == req.testId) = some test)
    (has : req.answers = some as)
    (_hq : test.questions ≠ []) :
    resp.score = specScore test.questions as
    ∧ resp.totalQuestions = test.questions.length
    ∧ resp.percentage = jsPercentage (specScore test.questions as) test.questions.length
    ∧ ∃ r, results' = results ++ [r]
        ∧ r.score = resp.score ∧ r.totalQuestions = resp.totalQuestions
        ∧ r.percentage = resp.percentage := by
  obtain ⟨-, answers, test', hans, hT, -, hresp, hres⟩ := submitTest_ok_inv h
  rw [hfind] at hT
  injection hT with hT'
  subst hT'
  rw [has] at hans
  injection hans with hans'
  subst hans'
  subst hresp
  refine ⟨?_, rfl, ?_, ⟨_, hres, rfl, rfl, rfl⟩⟩
  · exact gradeQuestions_countP_eq_specScore test.questions as
  · exact congrArg (fun n => jsPercentage n test.questions.length)
      (gradeQuestions_countP_eq_specScore test.questions as)

/-- Witness for claim C4: the four-question scenario of the specification
(answers 0,1,9,3 against correct 0,1,2,3 give score 3 and percentage 75). -/
theorem submit_percentage_double_rounding_witness :
    demoResp.score = specScore demoTest.questions demoAnswers
    ∧ demoResp.totalQuestions = demoTest.questions.length
    ∧ demoResp.percentage
        = jsPercentage (specScore demoTest.questions demoAnswers) demoTest.questions.length
    ∧ ∃ r, ([demoRecord] : List SubmissionResult) = [] ++ [r]
        ∧ r.score = demoResp.score ∧ r.totalQuestions = demoResp.totalQuestions
        ∧ r.percentage = demoResp.percentage :=
  submit_percentage_double_rounding [demoTest] [] uid1 demoReq 7 demoResp [demoRecord]
    demoTest demoAnswers (by rfl) (by rfl) (by rfl) (by decide)

/-! ### Claim C5 -/

/-- Claim C5: a graded outcome is correct exactly when the answer at the
matching ordinal position equals the correct marker, so an absent entry
(index beyond the submitted array) is marked incorrect and adds nothing to
the score; and the success or failure of the submit handler never depends
on the content of the answer array. -/
theorem grading_absent_incorrect_no_failure
    (qs : List Question) (as : List Int) (i : Nat) (r : QuestionResult)
    (h : (gradeQuestions qs as)[i]? = some r) :
    (r.isCorrect = true ↔ as[i]? = some r.correctAnswer)
    ∧ (as.length ≤ i → r.isCorrect = false)
    ∧ ∀ (tests : List Test) (results : List SubmissionResult) (uid testId : String)
        (ts : Option Nat) (bu : Option String) (now : Nat) (as1 as2 : List Int),
        (submitTest tests results uid ⟨testId, some as1, ts, bu⟩ now).isOk
          = (submitTest tests results uid ⟨testId, some as2, ts, bu⟩ now).isOk := by
  unfold gradeQuestions at h
  rw [gradeFrom_getElem?] at h
  rcases hq : qs[i]? with _ | q <;> rw [hq] at h
  · exact Option.noConfusion h
  injection h with h'
  subst h'
  refine ⟨?_, ?_, ?_⟩
  · simp [Nat.zero_add]
  · intro hlen
    have hnone : as[i]? = none := List.getElem?_eq_none hlen
    simp [Nat.zero_add, hnone]
  · intro tests results uid testId ts bu now as1 as2
    unfold submitTest
    dsimp only
    by_cases h1 : testId = ""
    · rw [if_pos h1, if_pos h1]
    · rw [if_neg h1, if_neg h1]
      rcases hT : tests.find? (fun t => t.id == testId) with _ | test <;> rw [hT] <;>
        try rfl
      rcases hR : results.find? (fun r => r.userId == uid && r.testId == testId)
        with _ | r0 <;> rw [hR] <;> try rfl

/-- Witness for claim C5: grading question 1 against an empty answer array
marks it incorrect, and swapping answer arrays never flips success. -/
theorem grading_absent_incorrect_no_failure_witness :
    (qrW.isCorrect = true ↔ (([] : List Int))[0]? = some qrW.correctAnswer)
    ∧ qrW.isCorrect = false
    ∧ ((submitTest [demoTest] [] uid1 ⟨tid1, some demoAnswers, none, none⟩ 7).isOk
        = (submitTest [demoTest] [] uid1 ⟨tid1, some [], none, none⟩ 7).isOk) :=
  ⟨(grading_absent_incorrect_no_failure demoQuestions [] 0 qrW (by rfl)).1,
   (grading_absent_incorrect_no_failure demoQuestions [] 0 qrW (by rfl)).2.1 (by decide),
   (grading_absent_incorrect_no_failure demoQuestions [] 0 qrW (by rfl)).2.2
     [demoTest] [] uid1 tid1 none none 7 demoAnswers []⟩

/-! ### Claim C10 -/

/-- Claim C10: the persisted result takes its account reference from the
bearer-token subject, and the handler result does not depend on any userId
smuggled into the request body. -/
theorem submit_result_user_from_token
    (tests : List Test) (results : List SubmissionResult) (uid : String)
    (req : SubmitRequest) (now : Nat) (resp : SubmitResponse)
    (results' : List SubmissionResult)
    (h : submitTest tests results uid req now = .ok (resp, results')) :
    (∃ r, results' = results ++ [r] ∧ r.userId = uid)
    ∧ ∀ v, submitTest tests results uid ⟨req.testId, req.answers, req.timeSpent, v⟩ now
        = submitTest tests results uid req now := by
  obtain ⟨-, answers, test, -, -, -, -, hres⟩ := submitTest_ok_inv h
  exact ⟨⟨_, hres, rfl⟩, fun v => rfl⟩

/-- Witness for claim C10: the concrete scenario, with a foreign account
id placed in the request body. -/
theorem submit_result_user_from_token_witness :
    (∃ r, ([demoRecord] : List SubmissionResult) = [] ++ [r] ∧ r.userId = uid1)
    ∧ submitTest [demoTest] [] uid1
        ⟨demoReq.testId, demoReq.answers, demoReq.timeSpent, some otherUid⟩ 7
      = submitTest [demoTest] [] uid1 demoReq 7 :=
  ⟨(submit_result_user_from_token [demoTest] [] uid1 demoReq 7 demoResp [demoRecord]
      (by rfl)).1,
   (submit_result_user_from_token [demoTest] [] uid1 demoReq 7 demoResp [demoRecord]
      (by rfl)).2 (some otherUid)⟩

/-! ### Claim C2 -/

/-- Entry of the id-assignment list at a position, in closed form. -/
theorem assignIdsFrom_getElem? :
    ∀ (qs : List ClientQuestion) (k i : Nat),
      (assignIdsFrom k qs)[i]? = (qs[i]?).map (fun q =>
        { id := q.id.getD (toString (k + i + 1))
          question := q.question
          options := q.options
          correct := q.correct })
  | [], _, i => by simp [assignIdsFrom]
  | q :: qs, k, 0 => by simp [assignIdsFrom]
  | q :: qs, k, i + 1 => by
    rw [assignIdsFrom, List.getElem?_cons_succ, List.getElem?_cons_succ,
      assignIdsFrom_getElem? qs (k + 1) i]
    have h1 : (k + 1) + i = k + (i + 1) := by omega
    rw [h1]

/-- A successful create stores exactly the assigned questions. -/
theorem createTest_ok_questions {directions : List Direction} {tests : List Test}
    {req : CreateRequest} {now : Nat} {t : Test} {tests' : List Test}
    (h : createTest directions tests req now = .ok (t, tests')) :
    t.questions = assignIds req.questions := by
  unfold createTest at h
  split at h
  · exact Except.noConfusion h
  split at h
  · exact Except.noConfusion h
  injection h with hp
  rw [Prod.mk.injEq] at hp
  rw [← hp.1]

/-- A successful update stores exactly the assigned questions. -/
theorem updateTest_ok_questions {directions : List Direction} {tests : List Test}
    {testId : String} {req : CreateRequest} {now : Nat} {t : Test} {tests' : List Test}
    (h : updateTest directions tests testId req now = .ok (t, tests')) :
    t.questions = assignIds req.questions := by
  unfold updateTest at h
  split at h
  · exact Except.noConfusion h
  split at h
  · exact Except.noConfusion h
  split at h
  · exact Except.noConfusion h
  split at h
  · exact Except.noConfusion h
  injection h with hp
  rw [Prod.mk.injEq] at hp
  rw [← hp.1]

/-- Claim C2 counterexample: creating a test whose single client question
carries the id "7" stores exactly that id, not the sequential "1". -/
theorem create_test_keeps_client_question_id_cex :
    (createTest [dir1] [] createReq7 9).toOption.map (fun p => p.1.questions.map Question.id)
      = some ["7"]
    ∧ (["7"] : List String) ≠ ["1"] :=
  ⟨rfl, by decide⟩

/-- Claim C2 as amended: on every successful create or update, the stored
id of the question at position i is the client-supplied id when the client
question carries one, and the sequential string (i+1) only when it does
not; client-supplied identifiers are preserved, not overwritten. -/
theorem question_ids_default_only
    (directions : List Direction) (req : CreateRequest) (testId : String) (now : Nat) :
    (∀ (tests : List Test) (t : Test) (tests' : List Test),
       createTest directions tests req now = .ok (t, tests') →
       ∀ i : Nat, (t.questions[i]?).map Question.id
         = (req.questions[i]?).map (fun q => q.id.getD (toString (i + 1))))
    ∧ (∀ (tests : List Test) (t : Test) (tests' : List Test),
       updateTest directions tests testId req now = .ok (t, tests') →
       ∀ i : Nat, (t.questions[i]?).map Question.id
         = (req.questions[i]?).map (fun q => q.id.getD (toString (i + 1)))) := by
  constructor
  · intro tests t tests' h i
    rw [createTest_ok_questions h]
    unfold assignIds
    rw [assignIdsFrom_getElem?]
    rcases req.questions[i]? with _ | q <;> simp
  · intro tests t tests' h i
    rw [updateTest_ok_questions h]
    unfold assignIds
    rw [assignIdsFrom_getElem?]
    rcases req.questions[i]? with _ | q <;> simp

/-- Witness for claim C2: the mixed create request stores id "7" at
position 0 (client id kept) and id "2" at position 1 (assigned). -/
theorem question_ids_default_only_witness :
    ((tMix.questions[0]?).map Question.id
      = ((createReqMix.questions)[0]?).map (fun q => q.id.getD (toString (0 + 1))))
    ∧ ((tMix.questions[1]?).map Question.id
      = ((createReqMix.questions)[1]?).map (fun q => q.id.getD (toString (1 + 1)))) :=
  ⟨(question_ids_default_only [dir1] createReqMix tid1 9).1 [] tMix [tMix] (by rfl) 0,
   (question_ids_default_only [dir1] createReqMix tid1 9).1 [] tMix [tMix] (by rfl) 1⟩

/-! ### Claim C6 -/

/-- Searching a mapped list with a predicate that factors through the map
equals mapping the result of searching the original list. -/
theorem find?_map_comm {α β : Type} (g : α → β) (p : β → Bool) (q : α → Bool)
    (hpq : ∀ a, p (g a) = q a) :
    ∀ l : List α, (l.map g).find? p = (l.find? q).map g
  | [] => rfl
  | a :: l => by
    have ih := find?_map_comm g p q hpq l
    cases hpa : q a with
    | false =>
      have hp : p (g a) = false := by rw [hpq a, hpa]
      simp [List.find?_cons, hp, hpa, ih]
    | true =>
      have hp : p (g a) = true := by rw [hpq a, hpa]
      simp [List.find?_cons, hp, hpa]

/-- Claim C6: the learner-facing single-test payload consists, per
question, of exactly the id, prompt and options of the stored question, and
it does not depend on the correct-option markers at all: rewriting every
marker through any function leaves the response unchanged. -/
theorem get_test_by_id_strips_correct_markers
    (tests : List Test) (testId : String) (pt : PublicTest)
    (h : getTestById tests testId = .ok pt) :
    (∃ t ∈ tests, t.id = testId ∧ pt.questions = t.questions.map stripQuestion)
    ∧ ∀ f : Question → Int,
        getTestById
          (tests.map (fun t =>
            { t with questions := t.questions.map (fun q => { q with correct := f q }) }))
          testId = .ok pt := by
  unfold getTestById at h
  rcases hT : tests.find? (fun t => t.id == testId) with _ | t <;> rw [hT] at h
  · exact Except.noConfusion h
  injection h with h'
  subst h'
  constructor
  · exact ⟨t, List.mem_of_find?_eq_some hT, by simpa using List.find?_some hT, rfl⟩
  · intro f
    have hfind2 := find?_map_comm (fun t : Test =>
        { t with questions := t.questions.map (fun q : Question => { q with correct := f q }) })
      (fun t => t.id == testId) (fun t => t.id == testId) (fun a => rfl) tests
    rw [hT] at hfind2
    simp only [Option.map_some'] at hfind2
    unfold getTestById
    rw [hfind2]
    have hcomp : stripQuestion ∘ (fun q : Question => { q with correct := f q })
        = stripQuestion := by
      funext q
      rfl
    simp only [List.map_map, hcomp]

/-- Witness for claim C6: the concrete four-question test. -/
theorem get_test_by_id_strips_correct_markers_witness :
    (∃ t ∈ [demoTest], t.id = tid1 ∧ demoPublic.questions = t.questions.map stripQuestion)
    ∧ ∀ f : Question → Int,
        getTestById
          ([demoTest].map (fun t =>
            { t with questions := t.questions.map (fun q => { q with correct := f q }) }))
          tid1 = .ok demoPublic :=
  get_test_by_id_strips_correct_markers [demoTest] tid1 demoPublic (by rfl)

/-! ### Claim C7 -/

/-- Shifting the starting index of the findIndex scan shifts its result. -/
theorem findIdxFrom_succ {α : Type} (p : α → Bool) :
    ∀ (l : List α) (k : Nat),
      findIdxFrom p (k + 1) l = (findIdxFrom p k l).map (fun n => n + 1)
  | [], _ => rfl
  | a :: l, k => by
    cases hpa : p a with
    | true => simp [findIdxFrom, hpa]
    | false => simp [findIdxFrom, hpa, findIdxFrom_succ p l (k + 1)]

/-- The findIndex scan over a list containing a match returns an index. -/
theorem findIdxFrom_exists {α : Type} (p : α → Bool) :
    ∀ l : List α, (∃ d ∈ l, p d = true) → ∃ idx, findIdxFrom p 0 l = some idx
  | [], h => absurd h (by simp)
  | a :: l, h => by
    cases hpa : p a with
    | true => exact ⟨0, by simp [findIdxFrom, hpa]⟩
    | false =>
      obtain ⟨d, hd, hpd⟩ := h
      have hd' : d ∈ l := by
        rcases List.mem_cons.mp hd with rfl | hd'
        · rw [hpa] at hpd; exact Bool.noConfusion hpd
        · exact hd'
      obtain ⟨idx, hidx⟩ := findIdxFrom_exists p l ⟨d, hd', hpd⟩
      exact ⟨idx + 1, by simp [findIdxFrom, hpa, findIdxFrom_succ, hidx]⟩

/-- When the scanned ids are duplicate-free, splicing out the entry found
by id leaves no entry with that id. -/
theorem findIdxFrom_eraseIdx_no_match (directionId : String) :
    ∀ l : List Direction, (l.map Direction.id).Nodup →
      ∀ idx, findIdxFrom (fun d => d.id == directionId) 0 l = some idx →
      ∀ d ∈ l.eraseIdx idx, d.id ≠ directionId
  | [], _, idx, h => by simp [findIdxFrom] at h
  | a :: l, hnodup, idx, h => by
    rw [List.map_cons, List.nodup_cons] at hnodup
    cases hpa : (a.id == directionId) with
    | true =>
      simp only [findIdxFrom, hpa, if_true] at h
      injection h with h'
      subst h'
      intro d hd hdid
      have haid : a.id = directionId := by simpa using hpa
      have hdl : d ∈ l := hd
      exact hnodup.1 (by rw [haid, ← hdid]; exact List.mem_map_of_mem Direction.id hdl)
    | false =>
      simp only [findIdxFrom, hpa, if_false] at h
      rw [findIdxFrom_succ] at h
      rcases hfl : findIdxFrom (fun d => d.id == directionId) 0 l with _ | j <;>
        rw [hfl] at h
      · exact Option.noConfusion h
      injection h with h'
      subst h'
      intro d hd
      have hd' : d = a ∨ d ∈ l.eraseIdx j := by simpa using hd
      rcases hd' with rfl | hd'
      · simpa using hpa
      · exact findIdxFrom_eraseIdx_no_match directionId l hnodup.2 j hfl d hd'

/-- Claim C7: deleting an existing direction fails with the in-use
conflict (and, failing, writes nothing) whenever some account or some test
references the id; when nothing references it, the deletion succeeds and
no direction with that id remains in the stored collection, hence in
subsequent listings. Stated under the invariant that stored direction ids
are pairwise distinct. -/
theorem delete_direction_in_use_conflict_or_removes
    (directions : List Direction) (users : List User) (tests : List Test)
    (directionId : String) (d : Direction)
    (hmem : d ∈ directions) (hd : d.id = directionId)
    (hnodup : (directions.map Direction.id).Nodup) :
    (((∃ u ∈ users, u.direction = directionId) ∨ (∃ t ∈ tests, t.direction = directionId)) →
       ∃ e, deleteDirection directions users tests directionId = .error e
         ∧ (e = .inUseByUsers ∨ e = .inUseByTests))
    ∧ ((∀ u ∈ users, u.direction ≠ directionId) → (∀ t ∈ tests, t.direction ≠ directionId) →
       ∃ ds', deleteDirection directions users tests directionId = .ok ds'
         ∧ ∀ d' ∈ getDirections ds', d'.id ≠ directionId) := by
  obtain ⟨idx, hidx⟩ := findIdxFrom_exists (fun x => x.id == directionId) directions
    ⟨d, hmem, by simpa using hd⟩
  constructor
  · intro href
    cases hu : users.any (fun u => u.direction == directionId) with
    | true =>
      exact ⟨.inUseByUsers, by unfold deleteDirection; rw [hidx]; simp [hu], Or.inl rfl⟩
    | false =>
      have htests : tests.any (fun t => t.direction == directionId) = true := by
        rcases href with ⟨u, hu', hud⟩ | ⟨t, ht', htd⟩
        · exfalso
          have : users.any (fun u => u.direction == directionId) = true :=
            List.any_eq_true.mpr ⟨u, hu', by simpa using hud⟩
          rw [hu] at this
          exact Bool.noConfusion this
        · exact List.any_eq_true.mpr ⟨t, ht', by simpa using htd⟩
      exact ⟨.inUseByTests, by unfold deleteDirection; rw [hidx]; simp [hu, htests],
        Or.inr rfl⟩
  · intro hus hts
    have hu : users.any (fun u => u.direction == directionId) = false := by
      cases hverdict : users.any (fun u => u.direction == directionId) with
      | false => rfl
      | true =>
        obtain ⟨u, hu', hud⟩ := List.any_eq_true.mp hverdict
        exact absurd (by simpa using hud) (hus u hu')
    have ht : tests.any (fun t => t.direction == directionId) = false := by
      cases hverdict : tests.any (fun t => t.direction == directionId) with
      | false => rfl
      | true =>
        obtain ⟨t, ht', htd⟩ := List.any_eq_true.mp hverdict
        exact absurd (by simpa using htd) (hts t ht')
    refine ⟨directions.eraseIdx idx, by unfold deleteDirection; rw [hidx]; simp [hu, ht], ?_⟩
    intro d' hd'
    exact findIdxFrom_eraseIdx_no_match directionId directions hnodup idx hidx d' hd'

/-- Witness for claim C7: deleting the unreferenced direction succeeds and
removes it; the conflict branch is vacuous over empty users and tests. -/
theorem delete_direction_in_use_conflict_or_removes_witness :
    (((∃ u ∈ ([] : List User), u.direction = dirOne) ∨
        (∃ t ∈ ([] : List Test), t.direction = dirOne)) →
       ∃ e, deleteDirection [dir1] [] [] dirOne = .error e
         ∧ (e = .inUseByUsers ∨ e = .inUseByTests))
    ∧ ((∀ u ∈ ([] : List User), u.direction ≠ dirOne) →
       (∀ t ∈ ([] : List Test), t.direction ≠ dirOne) →
       ∃ ds', deleteDirection [dir1] [] [] dirOne = .ok ds'
         ∧ ∀ d' ∈ getDirections ds', d'.id ≠ dirOne) :=
  delete_direction_in_use_conflict_or_removes [dir1] [] [] dirOne dir1
    (by simp) (by rfl) (by simp)

/-! ### Claim C8 -/

/-- Inversion of a successful verification: the written collection is the
original minus every entry matching the identity and the code. -/
theorem verifyCode_ok_inv {vs : List Verification} {telegram code : String}
    {now : Nat} {vs' : List Verification}
    (h : verifyCode vs telegram code now = .ok vs') :
    vs' = vs.filter (fun v => !(v.telegram == telegram && v.code == code)) := by
  unfold verifyCode at h
  split at h
  · exact Except.noConfusion h
  split at h
  · exact Except.noConfusion h
  injection h with h'
  exact h'.symm

/-- Claim C8: verification succeeds exactly when some stored entry matches
the identity and the code and the call happens strictly before its expiry;
on success the entry is deleted, so an immediate identical call fails with
InvalidOrExpired at any later instant; and when every matching entry has
expired (call at or after expiresAt) the call fails even though the code
matches. -/
theorem verify_code_once_before_expiry
    (vs : List Verification) (telegram code : String) (now : Nat)
    (ht : telegram ≠ "") (hc : code ≠ "") :
    ((∃ vs', verifyCode vs telegram code now = .ok vs')
       ↔ ∃ v ∈ vs, v.telegram = telegram ∧ v.code = code ∧ now < v.expiresAt)
    ∧ (∀ vs' now2, verifyCode vs telegram code now = .ok vs' →
        verifyCode vs' telegram code now2 = .error .invalidOrExpired)
    ∧ ((∀ v ∈ vs, v.telegram = telegram → v.code = code → v.expiresAt ≤ now) →
        verifyCode vs telegram code now = .error .invalidOrExpired) := by
  have hval : ¬(telegram = "" ∨ code = "") := not_or.mpr ⟨ht, hc⟩
  refine ⟨⟨?_, ?_⟩, ?_, ?_⟩
  · rintro ⟨vs', hok⟩
    unfold verifyCode at hok
    rw [if_neg hval] at hok
    rcases hf : vs.find? (fun v =>
        v.telegram == telegram && v.code == code && decide (now < v.expiresAt))
      with _ | v <;> rw [hf] at hok
    · exact Except.noConfusion hok
    · have hpv := List.find?_some hf
      simp only [Bool.and_eq_true, beq_iff_eq, decide_eq_true_eq] at hpv
      exact ⟨v, List.mem_of_find?_eq_some hf, hpv.1.1, hpv.1.2, hpv.2⟩
  · rintro ⟨v, hv, hvt, hvc, hvlt⟩
    have hsome : (vs.find? (fun v =>
        v.telegram == telegram && v.code == code && decide (now < v.expiresAt))).isSome := by
      rw [List.find?_isSome]
      exact ⟨v, hv, by simp [hvt, hvc, hvlt]⟩
    obtain ⟨w, hw⟩ := Option.isSome_iff_exists.mp hsome
    exact ⟨vs.filter (fun v => !(v.telegram == telegram && v.code == code)), by
      unfold verifyCode
      rw [if_neg hval, hw]⟩
  · intro vs' now2 hok
    have hfil := verifyCode_ok_inv hok
    unfold verifyCode
    rw [if_neg hval]
    have hnone : vs'.find? (fun v =>
        v.telegram == telegram && v.code == code && decide (now2 < v.expiresAt)) = none := by
      rw [List.find?_eq_none]
      intro v hv
      rw [hfil] at hv
      obtain ⟨-, hkeep⟩ := List.mem_filter.mp hv
      have hkeep' : ¬v.telegram = telegram ∨ ¬v.code = code := by simpa using hkeep
      intro hcontra
      simp only [Bool.and_eq_true, beq_iff_eq, decide_eq_true_eq] at hcontra
      rcases hkeep' with hk | hk
      · exact hk hcontra.1.1
      · exact hk hcontra.1.2
    rw [hnone]
  · intro hexp
    unfold verifyCode
    rw [if_neg hval]
    have hnone : vs.find? (fun v =>
        v.telegram == telegram && v.code == code && decide (now < v.expiresAt)) = none := by
      rw [List.find?_eq_none]
      intro v hv hcontra
      simp only [Bool.and_eq_true, beq_iff_eq, decide_eq_true_eq] at hcontra
      exact absurd hcontra.2 (Nat.not_lt.mpr (hexp v hv hcontra.1.1 hcontra.1.2))
    rw [hnone]

/-- Witness for claim C8: one live entry for the concrete identity. -/
theorem verify_code_once_before_expiry_witness :
    ((∃ vs', verifyCode [demoVer] tgAlice codeA 50 = .ok vs')
       ↔ ∃ v ∈ [demoVer], v.telegram = tgAlice ∧ v.code = codeA ∧ 50 < v.expiresAt)
    ∧ (∀ vs' now2, verifyCode [demoVer] tgAlice codeA 50 = .ok vs' →
        verifyCode vs' tgAlice codeA now2 = .error .invalidOrExpired)
    ∧ ((∀ v ∈ [demoVer], v.telegram = tgAlice → v.code = codeA → v.expiresAt ≤ 50) →
        verifyCode [demoVer] tgAlice codeA 50 = .error .invalidOrExpired) :=
  verify_code_once_before_expiry [demoVer] tgAlice codeA 50 (by decide) (by decide)

/-! ### Claim C9 -/

/-- Projecting the test out of the annotated payload recovers the list. -/
theorem map_test_mk (c : Test → Bool) :
    ∀ ts : List Test, (ts.map (fun t => (⟨t, c t⟩ : TestWithStatus))).map TestWithStatus.test = ts
  | [] => rfl
  | a :: l => by simp [map_test_mk c l]

/-- Claim C9: for a non-admin token subject the test list is exactly the
stored tests of the subject direction (so every returned test carries that
direction), while an admin subject receives every stored test. -/
theorem get_tests_direction_scoped
    (users : List User) (tests : List Test) (results : List SubmissionResult)
    (uid : String) (user : User) (l : List TestWithStatus)
    (hfind : users.find? (fun u => u.id == uid) = some user)
    (hok : getTests users tests results uid = .ok l) :
    (user.isAdmin = false →
       l.map TestWithStatus.test = tests.filter (fun t => t.direction == user.direction)
       ∧ ∀ x ∈ l, x.test.direction = user.direction)
    ∧ (user.isAdmin = true → l.map TestWithStatus.test = tests) := by
  unfold getTests at hok
  rw [hfind] at hok
  injection hok with hok'
  constructor
  · intro hadmin
    simp only [hadmin, Bool.false_eq_true, if_false] at hok'
    constructor
    · rw [← hok']
      exact map_test_mk _ _
    · intro x hx
      rw [← hok'] at hx
      obtain ⟨t, htmem, rfl⟩ := List.mem_map.mp hx
      simpa using (List.mem_filter.mp htmem).2
  · intro hadmin
    simp only [hadmin, if_true] at hok'
    rw [← hok']
    exact map_test_mk _ _

/-- Witness for claim C9: the non-admin subject sees only the test of its
direction, annotated as not completed. -/
theorem get_tests_direction_scoped_witness :
    (demoUser.isAdmin = false →
       demoScoped.map TestWithStatus.test
         = [demoTest, demoTest2].filter (fun t => t.direction == demoUser.direction)
       ∧ ∀ x ∈ demoScoped, x.test.direction = demoUser.direction)
    ∧ (demoUser.isAdmin = true → demoScoped.map TestWithStatus.test = [demoTest, demoTest2]) :=
  get_tests_direction_scoped [demoUser] [demoTest, demoTest2] [] uid1 demoUser demoScoped
    (by rfl) (by rfl)

end Quiz
